import Mathlib

/-!
Verification development for the Spring Boot log-analysis engine
(`LogAnalysisAgent` in `log_analysis_agent.py`).

The Python code is shallowly embedded: every regular expression used by the
source is translated into an executable backtracking matcher (`mrun`) whose
exploration order — greedy quantifiers try longest first, lazy quantifiers try
shortest first, alternation tries the left branch first, `search` tries start
positions left to right — coincides with the order of Python's `re` engine on
the pattern fragments that actually occur in the source (character classes,
literals, counted repetition, greedy `+`/`*`, lazy `*?`, alternation, capture
groups, and the `$` anchor).  All quantified subpatterns in the source consume
at least one character per iteration, so the fuel bound `input length + 1`
never truncates the search.  The ASCII fragments of `\w`, `\d`, `\s` are
modelled; every string the engine is evaluated on in this file is ASCII.
-/

/-- Exploration-ordered regular expressions: the constructors cover exactly the
syntax used by the six compiled patterns of `LogAnalysisAgent` plus the eight
detection patterns of `is_exception_line`. -/
inductive RE : Type where
  | eps : RE
  | cls (p : Char → Bool) : RE
  | cat (a b : RE) : RE
  | alt (a b : RE) : RE
  | starG (a : RE) : RE
  | starL (a : RE) : RE
  | grp (n : Nat) (a : RE) : RE
  | eos : RE

/-- Capture environment: group number paired with the captured characters.
Lookup takes the most recently recorded entry, matching Python's "last match
of the group" rule. -/
abbrev Caps := List (Nat × List Char)

/-- Backtracking step in continuation-passing style, structurally recursive on
the expression.  `k` receives the remaining input and the captures
accumulated along the successful path; a failing branch discards its
captures, as Python's engine does.  A quantifier re-enters itself through
`next`, the matcher at the next lower fuel level.  `eos` models Python's `$`
without `re.M`: end of input or a sole trailing newline. -/
def mrunStep (next : RE → List Char → Caps → (List Char → Caps → Option Caps) → Option Caps) :
    RE → List Char → Caps → (List Char → Caps → Option Caps) → Option Caps
  | .eps, s, caps, k => k s caps
  | .cls p, s, caps, k =>
    match s with
    | [] => none
    | c :: rest => if p c then k rest caps else none
  | .cat a b, s, caps, k => mrunStep next a s caps (fun s1 c1 => mrunStep next b s1 c1 k)
  | .alt a b, s, caps, k =>
    match mrunStep next a s caps k with
    | some res => some res
    | none => mrunStep next b s caps k
  | .starG a, s, caps, k =>
    match mrunStep next a s caps (fun s1 c1 => next (.starG a) s1 c1 k) with
    | some res => some res
    | none => k s caps
  | .starL a, s, caps, k =>
    match k s caps with
    | some res => some res
    | none => mrunStep next a s caps (fun s1 c1 => next (.starL a) s1 c1 k)
  | .grp n a, s, caps, k =>
    mrunStep next a s caps (fun s1 c1 => k s1 ((n, s.take (s.length - s1.length)) :: c1))
  | .eos, s, caps, k => if s.isEmpty || s == [ '\n' ] then k s caps else none

/-- Fuel-indexed backtracking matcher.  Every quantifier body among the
source's patterns consumes at least one character per iteration, so running
with fuel `input length + 1` never reaches fuel 0 and the matcher behaves as
the unbounded backtracking search of Python's `re`. -/
def mrun : Nat → RE → List Char → Caps → (List Char → Caps → Option Caps) → Option Caps
  | 0, _, s, caps, k => k s caps
  | fuel + 1, r, s, caps, k => mrunStep (mrun fuel) r s caps k

/-- Literal string as a regular expression. -/
def rlit (str : String) : RE :=
  str.toList.foldr (fun c r => RE.cat (RE.cls (fun x => x == c)) r) RE.eps

/-- Concatenation of a list of regular expressions. -/
def rcats (l : List RE) : RE := l.foldr RE.cat RE.eps

/-- Greedy `+`. -/
def rplus (r : RE) : RE := RE.cat r (RE.starG r)

/-- Counted repetition `{n}`. -/
def rrep (n : Nat) (r : RE) : RE := rcats (List.replicate n r)

/-- ASCII fragment of Python's `\d`. -/
def rdigit : RE := RE.cls Char.isDigit

/-- ASCII fragment of Python's `\w`. -/
def rword : RE := RE.cls (fun c => c.isAlphanum || c == '_')

/-- Python whitespace (the characters stripped by `str.strip()` and matched by
`\s`, restricted to ASCII). -/
def isPySpace (c : Char) : Bool :=
  c == ' ' || c == '\t' || c == '\n' || c == '\r' || c == '\x0b' || c == '\x0c'

/-- Python's `\s` (ASCII fragment). -/
def rspace : RE := RE.cls isPySpace

/-- Python's `.` without `re.DOTALL`: any character except newline. -/
def rdot : RE := RE.cls (fun c => c != '\n')

/-- Negated single-character class `[^c]`. -/
def rnot (c : Char) : RE := RE.cls (fun x => x != c)

/-- Python's `re.match`: anchored at the start of the string, the rest of the
input unconstrained.  Returns the capture environment of the first match in
backtracking order. -/
def rematch (r : RE) (s : String) : Option Caps :=
  mrun (s.toList.length + 1) r s.toList [] (fun _ caps => some caps)

/-- Scan for the leftmost start position admitting a match, as Python's
`re.search` does. -/
def researchList (r : RE) (fuel : Nat) (l : List Char) : Option Caps :=
  match mrun fuel r l [] (fun _ caps => some caps) with
  | some caps => some caps
  | none =>
    match l with
    | [] => none
    | _ :: rest => researchList r fuel rest

/-- Python's `re.search` on a string. -/
def research (r : RE) (s : String) : Option Caps :=
  researchList r (s.toList.length + 1) s.toList

/-- Python's `match.group(n)` for a group that participated in the match
(every group of every pattern in the source participates whenever the overall
pattern matches). -/
def ggroup (caps : Caps) (n : Nat) : String :=
  match caps.find? (fun p => p.1 == n) with
  | some p => ⟨ p.2 ⟩
  | none => ""

/-- Python's `str.strip()` (ASCII whitespace). -/
def pyStrip (s : String) : String :=
  ⟨ ((s.toList.dropWhile isPySpace).reverse.dropWhile isPySpace).reverse ⟩

/-- Python's `str.startswith`. -/
def pyStartswith (s p : String) : Bool := p.toList.isPrefixOf s.toList

/-- Contiguous-occurrence test on character lists. -/
def listContains (sub : List Char) : List Char → Bool
  | [] => sub.isEmpty
  | c :: rest => sub.isPrefixOf (c :: rest) || listContains sub rest

/-- Python's `sub in s` substring test. -/
def pyContains (sub s : String) : Bool := listContains sub.toList s.toList

/-- Python's `int` on a nonempty digit string. -/
def digitsToNat (s : String) : Nat :=
  s.toList.foldl (fun n c => n * 10 + (c.toNat - Char.toNat '0')) 0

/-- Shared timestamp core `\d{4}-\d{2}-\d{2}\s+\d{2}:\d{2}:\d{2}` of the three
log-line patterns. -/
def tsCoreRE : RE :=
  rcats [rrep 4 rdigit, rlit "-", rrep 2 rdigit, rlit "-", rrep 2 rdigit,
    rplus rspace, rrep 2 rdigit, rlit ":", rrep 2 rdigit, rlit ":", rrep 2 rdigit]

/-- Source pattern `log_patterns['spring_boot']`:
`(\d{4}-\d{2}-\d{2}\s+\d{2}:\d{2}:\d{2}\.\d{3})\s+(\w+)\s+\d+\s+---\s+\[([^\]]+)\]\s+([^:]+)\s*:\s*(.*)`. -/
def springBootRE : RE :=
  rcats [RE.grp 1 (rcats [tsCoreRE, rlit ".", rrep 3 rdigit]),
    rplus rspace, RE.grp 2 (rplus rword), rplus rspace, rplus rdigit,
    rplus rspace, rlit "---", rplus rspace, rlit "[",
    RE.grp 3 (rplus (rnot ']')), rlit "]", rplus rspace,
    RE.grp 4 (rplus (rnot ':')), RE.starG rspace, rlit ":", RE.starG rspace,
    RE.grp 5 (RE.starG rdot)]

/-- Source pattern `log_patterns['alternative']`:
`(\d{4}-\d{2}-\d{2}\s+\d{2}:\d{2}:\d{2})\s+(\w+)\s+(.*)`. -/
def alternativeRE : RE :=
  rcats [RE.grp 1 tsCoreRE, rplus rspace, RE.grp 2 (rplus rword),
    rplus rspace, RE.grp 3 (RE.starG rdot)]

/-- Source pattern `log_patterns['simple']`:
`(\d{4}-\d{2}-\d{2}\s+\d{2}:\d{2}:\d{2})\s+(.*)`. -/
def simpleRE : RE :=
  rcats [RE.grp 1 tsCoreRE, rplus rspace, RE.grp 2 (RE.starG rdot)]

/-- Shared fragment `\w+(?:\.\w+)*Exception` of the two signature patterns. -/
def dottedExcRE : RE :=
  rcats [rplus rword, RE.starG (RE.cat (rlit ".") (rplus rword)), rlit "Exception"]

/-- Source pattern `exception_patterns['exception_line']`:
`(\w+(?:\.\w+)*Exception):\s*(.*?)(?:\s+at\s+|$)`. -/
def exception_lineRE : RE :=
  rcats [RE.grp 1 dottedExcRE, rlit ":", RE.starG rspace,
    RE.grp 2 (RE.starL rdot),
    RE.alt (rcats [rplus rspace, rlit "at", rplus rspace]) RE.eos]

/-- Source pattern `exception_patterns['caused_by']`:
`Caused by:\s+(\w+(?:\.\w+)*Exception):\s*(.*?)(?:\s+at\s+|$)`. -/
def caused_byRE : RE :=
  rcats [rlit "Caused by:", rplus rspace, RE.grp 1 dottedExcRE, rlit ":",
    RE.starG rspace, RE.grp 2 (RE.starL rdot),
    RE.alt (rcats [rplus rspace, rlit "at", rplus rspace]) RE.eos]

/-- Source pattern `exception_patterns['stack_trace']`:
`\s+at\s+([^(]+)\(([^:]+):(\d+)\)`. -/
def stack_traceRE : RE :=
  rcats [rplus rspace, rlit "at", rplus rspace, RE.grp 1 (rplus (rnot '(')),
    rlit "(", RE.grp 2 (rplus (rnot ':')), rlit ":", RE.grp 3 (rplus rdigit),
    rlit ")"]

/-- Source pattern `exception_patterns['more_lines']`:
`\s+\.\.\.\s+(\d+)\s+more`. -/
def more_linesRE : RE :=
  rcats [rplus rspace, rlit "...", rplus rspace, RE.grp 1 (rplus rdigit),
    rplus rspace, rlit "more"]

/-- Detection patterns searched by `is_exception_line`, in source order:
`\w+Exception:`, `\w+Error:`, `Caused by:\s+\w+`, `Exception in thread`,
`java\.lang\.\w+Exception`, `java\.io\.\w+Exception`, `java\.sql\.\w+Exception`,
`org\.springframework\.\w+Exception`. -/
def detectionREs : List RE :=
  [RE.cat (rplus rword) (rlit "Exception:"),
   RE.cat (rplus rword) (rlit "Error:"),
   rcats [rlit "Caused by:", rplus rspace, rplus rword],
   rlit "Exception in thread",
   rcats [rlit "java.lang.", rplus rword, rlit "Exception"],
   rcats [rlit "java.io.", rplus rword, rlit "Exception"],
   rcats [rlit "java.sql.", rplus rword, rlit "Exception"],
   rcats [rlit "org.springframework.", rplus rword, rlit "Exception"]]

/-- Embedding of the dictionary produced by `LogAnalysisAgent.parse_log_line`.
The Python code stores `thread`/`logger` keys only for the `spring_boot`
format and an `is_continuation` key only for unmatched lines; here the
optional keys are explicit optionals and the flag defaults to `false`. -/
structure ParsedLine where
  timestamp : String
  level : String
  thread : Option String := none
  logger : Option String := none
  message : String
  raw_line : String
  is_continuation : Bool := false
deriving Repr, DecidableEq, Inhabited

/-- Embedding of the `ExceptionInfo` dataclass. -/
structure ExceptionInfo where
  timestamp : String
  log_level : String
  exception_type : String
  exception_message : String
  stack_trace : List String
  surrounding_context : List String
  file_path : String
  line_number : Option Nat := none
  method_name : Option String := none
  class_name : Option String := none
deriving Repr, DecidableEq, Inhabited

/-- Embedding of `LogAnalysisAgent.parse_log_line`: strip the line, drop it if
blank, then try the three formats in dictionary order (`spring_boot`,
`alternative`, `simple`, all via anchored `.match`); an unmatched line becomes
a continuation record whose message is the stripped line itself. -/
def parse_log_line (line : String) : Option ParsedLine :=
  let l := pyStrip line
  if l == "" then none
  else
    match rematch springBootRE l with
    | some caps =>
      some { timestamp := ggroup caps 1, level := ggroup caps 2,
             thread := some (ggroup caps 3), logger := some (ggroup caps 4),
             message := ggroup caps 5, raw_line := l }
    | none =>
      match rematch alternativeRE l with
      | some caps =>
        some { timestamp := ggroup caps 1, level := ggroup caps 2,
               message := ggroup caps 3, raw_line := l }
      | none =>
        match rematch simpleRE l with
        | some caps =>
          some { timestamp := ggroup caps 1, level := "INFO",
                 message := ggroup caps 2, raw_line := l }
        | none =>
          some { timestamp := "", level := "", message := l, raw_line := l,
                 is_continuation := true }

/-- Embedding of `LogAnalysisAgent.is_exception_line`: exclusion of stack-frame
and elision lines first, then `re.search` of the eight detection patterns. -/
def is_exception_line (message : String) : Bool :=
  if pyStartswith (pyStrip message) "at " || pyStartswith (pyStrip message) "..." then
    false
  else
    detectionREs.any (fun r => (research r message).isSome)

/-- Type/message extraction of `extract_exception_details` (source lines
151-162): try `exception_patterns['exception_line']` then
`exception_patterns['caused_by']` on the header's message (the two entries of
the pattern dictionary whose names are in the processed list, in insertion
order, with a `break` on the first match); with no match the defaults
`("Unknown", message)` survive.  Python falls back to the raw message when
`match.group(2)` is falsy, i.e. the empty string. -/
def exc_type_msg (message : String) : String × String :=
  match research exception_lineRE message with
  | some caps =>
    (ggroup caps 1, if ggroup caps 2 != "" then ggroup caps 2 else message)
  | none =>
    match research caused_byRE message with
    | some caps =>
      (ggroup caps 1, if ggroup caps 2 != "" then ggroup caps 2 else message)
    | none => ("Unknown", message)

/-- Absorption test of the stack-trace accumulation loop (source lines
164-187): each of the five `if`/`elif` branches appends the stripped message
and advances, and the final `else` stops, so the loop body is governed by this
disjunction. -/
def absorbLine (line : ParsedLine) : Bool :=
  (rematch stack_traceRE line.message).isSome ||
  (rematch more_linesRE line.message).isSome ||
  pyStartswith (pyStrip line.message) "at " ||
  pyContains "Caused by:" line.message ||
  (line.is_continuation && pyStrip line.message != "")

/-- One-step body of the stack-trace accumulation loop of
`extract_exception_details`, iterated on a countdown of the indices left to
visit: from `current_index` forward, absorb (as the stripped message) while
`absorbLine` holds and stop at the first failure or at the end of the list. -/
def collectGo (lines : List ParsedLine) : Nat → Nat → List String
  | 0, _ => []
  | fuel + 1, current_index =>
    if current_index < lines.length then
      let line := (lines.get? current_index).getD default
      if absorbLine line then
        pyStrip line.message :: collectGo lines fuel (current_index + 1)
      else []
    else []

/-- Stack-trace accumulation loop of `extract_exception_details` (source lines
164-187).  The countdown `lines.length - current_index` is exactly the number
of iterations the source's `while current_index < len(lines)` loop can still
perform, so the fuel never runs out before the loop condition fails. -/
def collect_trace (lines : List ParsedLine) (current_index : Nat) : List String :=
  collectGo lines (lines.length - current_index) current_index

/-- Head-frame parse of `extract_exception_details` (source lines 189-211):
`re.search` of `exception_patterns['stack_trace']` on the first stack-trace
entry; on success `file_path`/`line_number`/`method_name` are set and
`class_name` is set only when the qualifier contains a dot, via
`rsplit('.', 1)`.  Returns `(file_path, line_number, method_name, class_name)`
with the source's defaults `("", None, None, None)` on no match. -/
def parse_head_frame (first_stack_line : String) :
    String × Option Nat × Option String × Option String :=
  match research stack_traceRE first_stack_line with
  | none => ("", none, none, none)
  | some caps =>
    let method_full := ggroup caps 1
    let file_name := ggroup caps 2
    let ln := digitsToNat (ggroup caps 3)
    if pyContains "." method_full then
      let mth : String := ⟨ (method_full.toList.reverse.takeWhile (fun c => c != '.')).reverse ⟩
      let cls : String := ⟨ method_full.toList.take
        (method_full.toList.length -
          (method_full.toList.reverse.takeWhile (fun c => c != '.')).length - 1) ⟩
      (file_name, some ln, some mth, some cls)
    else
      (file_name, some ln, some method_full, none)

/-- Embedding of `LogAnalysisAgent.extract_exception_details`.  The context
window is the raw lines of indices `max(0, start_index-5) .. start_index-1`
(the loop's `i < len(lines)` guard is subsumed by `take`); the driver only
calls this with `start_index < lines.length`, mirrored here by the total
lookup `(lines.get? start_index).getD default`. -/
def extract_exception_details (lines : List ParsedLine) (start_index : Nat) :
    ExceptionInfo :=
  let exception_line := (lines.get? start_index).getD default
  let tm := exc_type_msg exception_line.message
  let st := collect_trace lines (start_index + 1)
  let head :=
    match st with
    | [] => (("" : String), (none : Option Nat), (none : Option String), (none : Option String))
    | first :: _ => parse_head_frame first
  { timestamp := exception_line.timestamp
    log_level := exception_line.level
    exception_type := tm.1
    exception_message := tm.2
    stack_trace := st
    surrounding_context := ((lines.take start_index).drop (start_index - 5)).map (fun l => l.raw_line)
    file_path := head.1
    line_number := head.2.1
    method_name := head.2.2.1
    class_name := head.2.2.2 }

/-- One-step body of the driver loop of `analyze_log_file`, iterated on a
countdown of the indices left to visit: where `is_exception_line` flags the
message, append the extracted record; always advance by one. -/
def analyzeGo (parsed : List ParsedLine) : Nat → Nat → List ExceptionInfo
  | 0, _ => []
  | fuel + 1, i =>
    if i < parsed.length then
      (if is_exception_line ((parsed.get? i).getD default).message then
        [extract_exception_details parsed i]
      else []) ++ analyzeGo parsed fuel (i + 1)
    else []

/-- Driver loop of `analyze_log_file` (source lines 240-253), scanning from
index `i`.  The countdown `parsed.length - i` is exactly the number of
iterations the source's `while i < len(parsed_lines)` loop can still perform.
The `try`/`except` around the extraction is dead in the embedding because
`extract_exception_details` is a total function. -/
def analyzeFrom (parsed : List ParsedLine) (i : Nat) : List ExceptionInfo :=
  analyzeGo parsed (parsed.length - i) i

/-- Embedding of `analyze_log_file` after the file has been read: parse every
line, keep the non-`None` results (`if parsed:` — a parse result is either
`None` or a non-empty, hence truthy, dictionary), then run the driver loop
from index 0.  File access itself is an external concern. -/
def analyze_log_file_lines (raw_lines : List String) : List ExceptionInfo :=
  analyzeFrom (raw_lines.filterMap parse_log_line) 0

/-- Defining input fixture of the spec's two-line test: a `spring_boot`-format
header announcing a `NullPointerException` followed by a tab-indented frame. -/
def c1Input : List String :=
  ["2024-01-01 00:00:00.000 ERROR 1 --- [main] X : java.lang.NullPointerException: boom",
   "\tat a.B.c(B.java:10)"]

/-- Parsed form of `c1Input`. -/
def c1Parsed : List ParsedLine := c1Input.filterMap parse_log_line

/-- Input whose third line is a `Caused by:` continuation that is both
absorbed into the first record's trace and re-detected as its own header. -/
def c2Input : List String :=
  ["2024-01-01 00:00:00.000 ERROR 1 --- [main] X : java.lang.RuntimeException: outer",
   "\tat a.B.c(B.java:10)",
   "Caused by: java.lang.NullPointerException: inner",
   "\tat a.B.d(B.java:20)"]

/-- Closed form of the accumulation loop: from any index, the collected trace
is the maximal absorbable run of the remaining lines, as stripped messages. -/
theorem collect_trace_eq (lines : List ParsedLine) (i : Nat) :
    collect_trace lines i =
      ((lines.drop i).takeWhile absorbLine).map (fun l => pyStrip l.message) := by
  have main : ∀ (fuel i : Nat), lines.length - i = fuel →
      collectGo lines fuel i =
        ((lines.drop i).takeWhile absorbLine).map (fun l => pyStrip l.message) := by
    intro fuel
    induction fuel with
    | zero =>
      intro i hi
      have hle : lines.length ≤ i := by omega
      simp [collectGo, List.drop_eq_nil_of_le hle]
    | succ fuel ih =>
      intro i hi
      have h : i < lines.length := by omega
      have hget : lines.get? i = some lines[i] := by
        rw [List.get?_eq_getElem?, List.getElem?_eq_getElem h]
      rw [collectGo, if_pos h, hget, List.drop_eq_getElem_cons h, List.takeWhile_cons]
      by_cases ha : absorbLine lines[i]
      · rw [ih (i + 1) (by omega)]
        simp [ha]
      · simp [ha]
  exact main (lines.length - i) i rfl

/-- Closed form of the driver loop: scanning from index `i` emits exactly one
record per header index, in index order, and the scan always advances to the
immediately following index. -/
theorem analyzeFrom_eq (parsed : List ParsedLine) (i : Nat) :
    analyzeFrom parsed i =
      ((List.range' i (parsed.length - i)).filter
        (fun j => is_exception_line ((parsed.get? j).getD default).message)).map
        (fun j => extract_exception_details parsed j) := by
  have main : ∀ (fuel i : Nat), parsed.length - i = fuel →
      analyzeGo parsed fuel i =
        ((List.range' i fuel).filter
          (fun j => is_exception_line ((parsed.get? j).getD default).message)).map
          (fun j => extract_exception_details parsed j) := by
    intro fuel
    induction fuel with
    | zero =>
      intro i hi
      simp [analyzeGo]
    | succ fuel ih =>
      intro i hi
      have h : i < parsed.length := by omega
      rw [analyzeGo, if_pos h, List.range'_succ, List.filter_cons, ih (i + 1) (by omega)]
      by_cases hd : is_exception_line ((parsed.get? i).getD default).message
      all_goals
        simp only [List.get?_eq_getElem?] at hd
        simp [hd]
  exact main (parsed.length - i) i rfl

/-- Weakening for `startswith`: a string beginning with `"... " ++ t` begins
with `"..."`. -/
theorem pyStartswith_dots (s t : String)
    (h : pyStartswith s ("... " ++ t) = true) : pyStartswith s "..." = true := by
  unfold pyStartswith at h ⊢
  rw [ List.isPrefixOf_iff_prefix] at h ⊢
  refine List.IsPrefix.trans ?_ h
  have hdata : ("... " ++ t : String).toList = ("..." : String).toList ++ (' ' :: t.toList) := by
    show ("... " ++ t : String).data = ("..." : String).data ++ (' ' :: t.data)
    rw [String.data_append]
    rfl
  rw [hdata]
  exact List.prefix_append _ _

/-- C6: a message whose stripped form begins with the stack-frame marker
`"at "` or with an elision marker `"... N more"` is never classified as an
exception header by `is_exception_line`, whatever exception-like substrings it
contains: the exclusion test runs before, and preempts, all eight signature
searches. -/
theorem C6_exclusion_precedes_signatures (message : String)
    (h : pyStartswith (pyStrip message) "at " = true ∨
         ∃ n : Nat, pyStartswith (pyStrip message) ("... " ++ (toString n ++ " more")) = true) :
    is_exception_line message = false := by
  have hcond : (pyStartswith (pyStrip message) "at " ||
      pyStartswith (pyStrip message) "...") = true := by
    rcases h with h | ⟨n, h⟩
    · simp [h]
    · simp [pyStartswith_dots (pyStrip message) (toString n ++ " more") h]
  simp [is_exception_line, hcond]

/-- Witness for C6: a line that embeds the exception-like token
`FooException:` but starts (after stripping) with `"at "`, and a plain elision
line, are both rejected by the detector. -/
theorem C6_exclusion_precedes_signatures_witness :
    is_exception_line "   at com.FooException: boom" = false ∧
    is_exception_line "... 3 more" = false :=
  ⟨C6_exclusion_precedes_signatures "   at com.FooException: boom" (Or.inl (by decide)),
   C6_exclusion_precedes_signatures "... 3 more" (Or.inr ⟨3, by decide⟩)⟩

/-- C7: a header whose message matches neither
`exception_patterns['exception_line']` nor `exception_patterns['caused_by']`
is assembled (the embedding's extraction is a total function, so assembly
cannot abort) with `exception_type = "Unknown"` and the header's message kept
verbatim as `exception_message`. -/
theorem C7_unknown_fallback (lines : List ParsedLine) (i : Nat)
    (h1 : research exception_lineRE ((lines.get? i).getD default).message = none)
    (h2 : research caused_byRE ((lines.get? i).getD default).message = none) :
    (extract_exception_details lines i).exception_type = "Unknown" ∧
    (extract_exception_details lines i).exception_message =
      ((lines.get? i).getD default).message := by
  have htm : exc_type_msg ((lines.get? i).getD default).message =
      ("Unknown", ((lines.get? i).getD default).message) := by
    unfold exc_type_msg
    rw [h1, h2]
  simp only [List.get?_eq_getElem?] at htm ⊢
  constructor <;> simp [extract_exception_details, htm]

/-- Continuation line used to witness C7: detected via the
`Exception in thread` signature, yet carrying no `...Exception:` token. -/
def c7Parsed : List ParsedLine :=
  [{ timestamp := "", level := "", message := "Exception in thread main blah",
     raw_line := "Exception in thread main blah", is_continuation := true }]

/-- Witness for C7 at a concrete header with no parsable signature. -/
theorem C7_unknown_fallback_witness :
    (extract_exception_details c7Parsed 0).exception_type = "Unknown" ∧
    (extract_exception_details c7Parsed 0).exception_message =
      ((c7Parsed.get? 0).getD default).message :=
  C7_unknown_fallback c7Parsed 0 (by decide) (by decide)

/-- C8: for any header index `i`, the record's `stack_trace` is exactly the
maximal contiguous run of lines from index `i + 1` on which `absorbLine`
holds — stack-frame lines, elision markers, lines containing `Caused by:`,
and non-empty continuation lines — in their original input order, absorption
halting at the first line matching none of these; each absorbed line is
stored as its stripped message. -/
theorem C8_trace_is_maximal_absorbed_run (lines : List ParsedLine) (i : Nat) :
    (extract_exception_details lines i).stack_trace =
      ((lines.drop (i + 1)).takeWhile absorbLine).map (fun l => pyStrip l.message) := by
  simp [extract_exception_details, collect_trace_eq]

/-- C9: the extraction pipeline is a pure function of the input line
sequence — two runs on identical inputs yield identical record lists.  In
the embedding the pipeline carries no hidden state (the source's only
per-agent state is its immutable pattern configuration), so determinism is
substitutivity. -/
theorem C9_deterministic (l1 l2 : List String) (h : l1 = l2) :
    analyze_log_file_lines l1 = analyze_log_file_lines l2 := by
  rw [h]

/-- Witness for C9 at the concrete two-line fixture. -/
theorem C9_deterministic_witness :
    analyze_log_file_lines c1Input = analyze_log_file_lines c1Input :=
  C9_deterministic c1Input c1Input rfl

/-- C10: a record whose absorbed trace is empty, or whose first absorbed
trace line has no substring matching the frame pattern
`\s+at\s+QUALIFIER(FILE:LINE)`, is still assembled, with `file_path = ""`
and `line_number`, `method_name`, `class_name` all `none`; the head-location
fields are computed from the first trace entry alone, so no later trace line
can populate them. -/
theorem C10_head_location_defaults (lines : List ParsedLine) (i : Nat)
    (h : (extract_exception_details lines i).stack_trace = [] ∨
         research stack_traceRE ((extract_exception_details lines i).stack_trace.headD "") = none) :
    (extract_exception_details lines i).file_path = "" ∧
    (extract_exception_details lines i).line_number = none ∧
    (extract_exception_details lines i).method_name = none ∧
    (extract_exception_details lines i).class_name = none := by
  simp only [extract_exception_details] at h ⊢
  cases hst : collect_trace lines (i + 1) with
  | nil => simp [hst]
  | cons first rest =>
    rw [hst] at h
    simp only [List.headD_cons] at h
    rcases h with h | h
    · exact absurd h (by simp)
    · simp [hst, parse_head_frame, h]

set_option maxRecDepth 8000 in
/-- Witness for C10: in the two-line fixture the single absorbed trace entry
is stored stripped, the frame pattern (which demands leading whitespace)
fails on it, and all four head-location fields fall back to their
defaults. -/
theorem C10_head_location_defaults_witness :
    (extract_exception_details c1Parsed 0).file_path = "" ∧
    (extract_exception_details c1Parsed 0).line_number = none ∧
    (extract_exception_details c1Parsed 0).method_name = none ∧
    (extract_exception_details c1Parsed 0).class_name = none :=
  C10_head_location_defaults c1Parsed 0 (Or.inr (by decide))

set_option maxRecDepth 8000 in
/-- Refutation for C1: on the spec's two-line fixture the pipeline does
produce exactly one record, but its `exception_type` is the full dotted name
captured by `(\w+(?:\.\w+)*Exception)`, and — because the absorbed frame is
stored stripped while the frame pattern `\s+at\s+...` demands leading
whitespace — the head-location fields keep their defaults, so the record
never carries `exception_type = "NullPointerException"`, `file_path =
"B.java"`, `line_number = 10`, `method_name = "c"`, `class_name = "a.B"`. -/
theorem C1_counterexample :
    ¬ ((analyze_log_file_lines c1Input).length = 1 ∧
       ((analyze_log_file_lines c1Input).get? 0).map (fun r => r.exception_type) =
         some "NullPointerException" ∧
       ((analyze_log_file_lines c1Input).get? 0).map (fun r => r.file_path) = some "B.java" ∧
       ((analyze_log_file_lines c1Input).get? 0).map (fun r => r.line_number) = some (some 10) ∧
       ((analyze_log_file_lines c1Input).get? 0).map (fun r => r.method_name) = some (some "c") ∧
       ((analyze_log_file_lines c1Input).get? 0).map (fun r => r.class_name) = some (some "a.B")) := by
  decide

set_option maxRecDepth 8000 in
/-- C1 as the code actually behaves: the two-line fixture yields exactly one
record, with the full dotted `exception_type`, the message `"boom"`, the
stripped frame as the single trace entry, and defaulted head-location
fields. -/
theorem C1_amended_fixture :
    analyze_log_file_lines c1Input =
      [{ timestamp := "2024-01-01 00:00:00.000", log_level := "ERROR",
         exception_type := "java.lang.NullPointerException", exception_message := "boom",
         stack_trace := ["at a.B.c(B.java:10)"], surrounding_context := [],
         file_path := "", line_number := none, method_name := none, class_name := none }] := by
  decide

set_option maxRecDepth 8000 in
/-- C2: the driver always resumes at the immediately following index — the
scan over any parsed line sequence emits one record per header index,
regardless of how far each extraction's internal absorption ran — and on the
concrete input `c2Input` the `Caused by:` line that was already absorbed
into the first record's stack trace is re-detected as a header of its own,
yielding a second, overlapping record. -/
theorem C2_resume_at_next_index :
    (∀ (parsed : List ParsedLine),
      analyzeFrom parsed 0 =
        ((List.range parsed.length).filter
          (fun j => is_exception_line ((parsed.get? j).getD default).message)).map
          (fun j => extract_exception_details parsed j)) ∧
    (analyze_log_file_lines c2Input).length = 2 ∧
    ((analyze_log_file_lines c2Input).get? 0).map (fun r => r.stack_trace) =
      some ["at a.B.c(B.java:10)", "Caused by: java.lang.NullPointerException: inner",
            "at a.B.d(B.java:20)"] ∧
    (((c2Input.filterMap parse_log_line).get? 2).getD default).message =
      "Caused by: java.lang.NullPointerException: inner" ∧
    is_exception_line "Caused by: java.lang.NullPointerException: inner" = true ∧
    ((analyze_log_file_lines c2Input).get? 1).map (fun r => (r.exception_type, r.exception_message)) =
      some ("java.lang.NullPointerException", "inner") := by
  refine ⟨?_, by decide, by decide, by decide, by decide, by decide⟩
  intro parsed
  rw [analyzeFrom_eq, List.range_eq_range']
  simp

/-- Refutation for C4: on the exact line of the claim — which has no leading
whitespace — the head-frame parse of the source (an `re.search` of
`\s+at\s+([^(]+)\(([^:]+):(\d+)\)` followed by `rsplit('.', 1)`) finds no
match at all, so it does not yield the claimed location fields. -/
theorem C4_counterexample :
    parse_head_frame "at com.example.Foo.bar(Foo.java:42)" ≠
      ("Foo.java", some 42, some "bar", some "com.example.Foo") := by
  decide

/-- C4 as the code actually behaves: the frame pattern requires at least one
whitespace character before `at`, so the claim's line parses to the defaults,
while the same line prefixed with a tab parses to qualifier
`"com.example.Foo.bar"`, file `"Foo.java"`, line `42`, method `"bar"`, class
`"com.example.Foo"`. -/
theorem C4_amended_frame_parse :
    research stack_traceRE "at com.example.Foo.bar(Foo.java:42)" = none ∧
    parse_head_frame "at com.example.Foo.bar(Foo.java:42)" = ("", none, none, none) ∧
    (research stack_traceRE "\tat com.example.Foo.bar(Foo.java:42)").map (fun c => ggroup c 1) =
      some "com.example.Foo.bar" ∧
    parse_head_frame "\tat com.example.Foo.bar(Foo.java:42)" =
      ("Foo.java", some 42, some "bar", some "com.example.Foo") := by
  decide

set_option maxRecDepth 8000 in
/-- Refutation for C5: in the two-line fixture the input line is the
tab-indented `"\tat a.B.c(B.java:10)"`, yet the record's single `stack_trace`
element is the whitespace-stripped `"at a.B.c(B.java:10)"`, which is not any
line of the input sequence. -/
theorem C5_counterexample :
    c1Input.get? 1 = some "\tat a.B.c(B.java:10)" ∧
    ((analyze_log_file_lines c1Input).get? 0).map (fun r => r.stack_trace) =
      some ["at a.B.c(B.java:10)"] ∧
    ("at a.B.c(B.java:10)" : String) ≠ "\tat a.B.c(B.java:10)" ∧
    ¬ ("at a.B.c(B.java:10)" ∈ c1Input) := by
  decide

/-- C5 as the code actually behaves: stored lines are whitespace-trimmed
transformations, not the raw input lines.  Every parsed line's `raw_line` is
the stripped input line; a record's `surrounding_context` entries are those
stripped `raw_line`s of the preceding lines, and its `stack_trace` entries
are the stripped messages of the absorbed lines. -/
theorem C5_amended_trimmed_storage :
    (∀ (l : String) (p : ParsedLine), parse_log_line l = some p → p.raw_line = pyStrip l) ∧
    (∀ (lines : List ParsedLine) (i : Nat),
      (extract_exception_details lines i).surrounding_context =
        ((lines.take i).drop (i - 5)).map (fun l => l.raw_line) ∧
      (extract_exception_details lines i).stack_trace =
        ((lines.drop (i + 1)).takeWhile absorbLine).map (fun l => pyStrip l.message)) := by
  constructor
  · intro l p h
    simp only [parse_log_line] at h
    split at h
    · simp at h
    · split at h
      · cases h
        rfl
      · split at h
        · cases h
          rfl
        · split at h
          · cases h
            rfl
          · cases h
            rfl
  · intro lines i
    constructor
    · simp [extract_exception_details]
    · simp [extract_exception_details, collect_trace_eq]

/-- Witness for C5 at a concrete continuation line with surrounding
whitespace: the stored `raw_line` is the stripped form. -/
theorem C5_amended_trimmed_storage_witness :
    ({ timestamp := "", level := "", message := "hello", raw_line := "hello",
       is_continuation := true } : ParsedLine).raw_line = pyStrip "  hello  " :=
  C5_amended_trimmed_storage.1 "  hello  "
    { timestamp := "", level := "", message := "hello", raw_line := "hello",
      is_continuation := true } (by decide)
